import Mathlib

/-!
Shallow embedding of the chapter-unlock lease subsystem of `src/server.js`
(an Express + MongoDB content server).  Each HTTP handler that touches the
`chapter_locks`, `users` or `chapters` collections is translated into a pure
Lean function over an explicit database state.  MongoDB documents are lists
of records; `updateOne` with `upsert: true` becomes `upsertLock` (update the
first matching document, else insert); `deleteMany` becomes a filter;
`findOne` used only for existence becomes `List.any`.  Timestamps are
integers in milliseconds.  JavaScript request-body values are modelled by
`BVal` (`undef` stands for a missing field, `nan` for the NaN produced by
`parseInt` on a non-numeric string).
-/

namespace Rovel

/-- A JavaScript/BSON value as it appears in the request bodies, path
parameters and stored lease keys of `server.js`. -/
inductive BVal where
  | undef : BVal
  | nan : BVal
  | num : Int → BVal
  | str : String → BVal
deriving DecidableEq

/-- JavaScript truthiness, as used by the guards
`if (!userId || !contentId || !chapterId)` in the handlers. -/
def truthy : BVal → Bool
  | .undef => false
  | .nan => false
  | .num n => n != 0
  | .str s => s != ""

/-- Accumulate the value of a run of decimal digits. -/
def parseNatAcc : List Char → Nat → Nat
  | [], acc => acc
  | c :: cs, acc => parseNatAcc cs (acc * 10 + (c.toNat - 48))

/-- The digits-or-NaN core of JavaScript `parseInt`: take the leading digit
run; an empty run yields NaN. -/
def jsParseIntCore (cs : List Char) : BVal :=
  if (cs.takeWhile Char.isDigit).isEmpty then .nan
  else .num (parseNatAcc (cs.takeWhile Char.isDigit) 0)

/-- JavaScript `parseInt` on a string: skip leading spaces, optional sign,
then leading digits; no digits means NaN. -/
def jsParseIntStr (s : String) : BVal :=
  match s.data.dropWhile (fun c => c == ' ') with
  | '-' :: rest =>
      match jsParseIntCore rest with
      | .num n => .num (-n)
      | v => v
  | '+' :: rest => jsParseIntCore rest
  | cs => jsParseIntCore cs

/-- JavaScript `parseInt` on an arbitrary value (numbers pass through,
anything non-numeric gives NaN). -/
def jsParseInt : BVal → BVal
  | .num n => .num n
  | .str s => jsParseIntStr s
  | _ => .nan

/-- A document of the `chapter_locks` collection: one unlock lease. -/
structure Lease where
  userId : BVal
  contentId : BVal
  chapterId : BVal
  unlockedAt : Int
  expiresAt : Int
deriving DecidableEq

/-- A document of the `users` collection (only the fields the lease
subsystem touches). -/
structure UserRec where
  id : BVal
  last_seen : Int
deriving DecidableEq

/-- A document of the `chapters` collection (only the fields the gated and
direct chapter readers use). -/
structure ChapterRec where
  contentId : BVal
  chapterId : BVal
  normalizedTitle : BVal
  title : String
  pages : List String
  content : Option String
deriving DecidableEq

/-- The database state visible to the lease subsystem. -/
structure DB where
  chapter_locks : List Lease
  users : List UserRec
  chapters : List ChapterRec
deriving DecidableEq

def emptyDB : DB := ⟨[], [], []⟩

/-- The MongoDB equality filter on the lease key triple
`\x7b userId, contentId, chapterId \x7d`. -/
def lockMatches (u c ch : BVal) (l : Lease) : Bool :=
  l.userId == u && l.contentId == c && l.chapterId == ch

/-- The lease-key filter extended with `expiresAt: \x7b $gt: now \x7d`, the
shape used by every read-side lease query. -/
def activeLockMatches (now : Int) (u c ch : BVal) (l : Lease) : Bool :=
  lockMatches u c ch l && decide (now < l.expiresAt)

/-- `updateOne(filter, \x7b $set: \x7b unlockedAt, expiresAt \x7d \x7d, \x7b upsert: true \x7d)`
on `chapter_locks`: update the first document matching the key triple,
otherwise insert a new document carrying the filter fields plus the set
fields. -/
def upsertLock (u c ch : BVal) (ua ea : Int) : List Lease → List Lease
  | [] => [⟨u, c, ch, ua, ea⟩]
  | l :: ls =>
      if lockMatches u c ch l then ⟨l.userId, l.contentId, l.chapterId, ua, ea⟩ :: ls
      else l :: upsertLock u c ch ua ea ls

/-- `users.updateOne(\x7b id \x7d, \x7b $set: \x7b last_seen \x7d \x7d)` (no upsert):
update the first matching user, else do nothing. -/
def touchUser (uid : BVal) (now : Int) : List UserRec → List UserRec
  | [] => []
  | u :: us => if u.id == uid then ⟨u.id, now⟩ :: us else u :: touchUser uid now us

/-- Lease duration: `10 * 60 * 1000` ms in the grant handlers. -/
def LOCK_DURATION_MS : Int := 600000

/-- Delay of the timer-simulation grant: `40000` ms. -/
def TIMER_DELAY_MS : Int := 40000

/-- Period of the expired-lock cleanup interval: `60000` ms. -/
def SWEEP_PERIOD_MS : Int := 60000

/-- Whether some active lease matches the key triple
(`findOne` on `chapter_locks` used only for existence). -/
def activeLockExists (now : Int) (u c ch : BVal) (db : DB) : Bool :=
  db.chapter_locks.any (activeLockMatches now u c ch)

/-- Number of leases stored for a key triple. -/
def lockKeyCount (u c ch : BVal) (db : DB) : Nat :=
  (db.chapter_locks.filter (lockMatches u c ch)).length

/-- Response of `POST /api/unlock-chapter`. -/
inductive UnlockResp where
  | ok : Int → UnlockResp
  | badRequest : UnlockResp
  | serverError : UnlockResp
deriving DecidableEq

/-- Handler of `POST /api/unlock-chapter`.  Validates the three body fields
by JavaScript truthiness, upserts the lease keyed by
`(userId, parseInt(contentId), chapterId)` with a 10-minute expiry, then
updates the user's `last_seen`.  The whole body runs in one `try/catch`
returning a 500 error on any thrown store error; `usersFail` models the
`users.updateOne` call rejecting, which the catch turns into a 500 response
after the already-awaited lease upsert has taken effect. -/
def unlockChapter (usersFail : Bool) (now : Int) (userId contentId chapterId : BVal)
    (db : DB) : UnlockResp × DB :=
  if !(truthy userId) || !(truthy contentId) || !(truthy chapterId) then (.badRequest, db)
  else
    let ea := now + LOCK_DURATION_MS
    let locks1 := upsertLock userId (jsParseInt contentId) chapterId now ea db.chapter_locks
    if usersFail then (.serverError, ⟨locks1, db.users, db.chapters⟩)
    else (.ok ea, ⟨locks1, touchUser userId now db.users, db.chapters⟩)

/-- Response of `POST /ads-complete`. -/
inductive AdsResp where
  | ok : AdsResp
  | badRequest : AdsResp
  | serverError : AdsResp
deriving DecidableEq

/-- Handler of `POST /ads-complete`.  Same shape as `unlockChapter`, except
the lease key stores the raw `manga` body value as `contentId` (no
`parseInt`). -/
def adsComplete (usersFail : Bool) (now : Int) (userId manga chapterId : BVal)
    (db : DB) : AdsResp × DB :=
  if !(truthy userId) || !(truthy manga) || !(truthy chapterId) then (.badRequest, db)
  else
    let ea := now + LOCK_DURATION_MS
    let locks1 := upsertLock userId manga chapterId now ea db.chapter_locks
    if usersFail then (.serverError, ⟨locks1, db.users, db.chapters⟩)
    else (.ok, ⟨locks1, touchUser userId now db.users, db.chapters⟩)

/-- Handler of `GET /api/check-unlock/:userId/:contentId/:chapterId`.
Path parameters are strings; `contentId` goes through `parseInt`; the query
keeps `expiresAt: \x7b $gt: now \x7d`.  Pure read: the state is returned
unchanged. -/
def checkUnlock (now : Int) (userId contentId chapterId : String) (db : DB) : Bool × DB :=
  (activeLockExists now (.str userId) (jsParseIntStr contentId) (.str chapterId) db, db)

/-- Handler of `POST /api/refresh-chapter-locks`:
`chapter_locks.deleteMany(\x7b\x7d)` and report `deletedCount`. -/
def refreshChapterLocks (db : DB) : Nat × DB :=
  (db.chapter_locks.length, ⟨[], db.users, db.chapters⟩)

/-- Handler of `GET /api/user-locks/:userId`: all not-yet-expired leases of
one user.  Pure read. -/
def userLocks (now : Int) (userId : String) (db : DB) : List Lease × DB :=
  (db.chapter_locks.filter
      (fun l => l.userId == BVal.str userId && decide (now < l.expiresAt)), db)

/-- The `chapters.findOne(\x7b normalizedTitle, chapterId \x7d)` lookup shared by
the gated and direct chapter readers; both arguments are raw path strings. -/
def findChapter (manga chapterId : String) (db : DB) : Option ChapterRec :=
  db.chapters.find?
    (fun cr => cr.normalizedTitle == BVal.str manga && cr.chapterId == BVal.str chapterId)

/-- Response of `GET /chapter/:manga/:chapterId`. -/
inductive GateResp where
  | payload : String → List String → Option String → GateResp
  | locked : GateResp
  | notFound : GateResp
deriving DecidableEq

/-- Handler of `GET /chapter/:manga/:chapterId` (the Access Gate).
`userId = req.query.user || 'guest'`; the lease lookup keys `contentId` by
the raw `manga` path string; a missing active lease answers 402 before the
chapter is ever looked up; with a lease, an existing chapter is served and a
missing one answers 404.  Pure read. -/
def chapterGate (now : Int) (manga chapterId : String) (user : BVal) (db : DB) :
    GateResp × DB :=
  let userId := if truthy user then user else .str "guest"
  if activeLockExists now userId (.str manga) (.str chapterId) db then
    match findChapter manga chapterId db with
    | some cr => (.payload cr.title cr.pages cr.content, db)
    | none => (.notFound, db)
  else (.locked, db)

/-- Response of `POST /api/start-chapter-timer`: the handler always answers
success with `timerDuration: 40000`. -/
inductive TimerResp where
  | started : Int → TimerResp
deriving DecidableEq

/-- The callback scheduled by `setTimeout` in `POST /api/start-chapter-timer`,
carrying the raw body fields and its fire time. -/
structure TimerTask where
  userId : BVal
  contentId : BVal
  chapterId : BVal
  fireAt : Int
deriving DecidableEq

/-- Result of the `POST /api/start-chapter-timer` handler itself: the
immediate response, the unchanged database, and the scheduled task. -/
structure TimerOutcome where
  resp : TimerResp
  db : DB
  task : TimerTask
deriving DecidableEq

/-- Handler of `POST /api/start-chapter-timer`.  It performs no validation
of the body fields: it schedules the unlock callback 40000 ms ahead and
immediately answers success, leaving the store untouched. -/
def startChapterTimer (now : Int) (userId contentId chapterId : BVal) (db : DB) :
    TimerOutcome :=
  ⟨.started TIMER_DELAY_MS, db, ⟨userId, contentId, chapterId, now + TIMER_DELAY_MS⟩⟩

/-- Firing the scheduled timer callback: upsert the lease keyed by
`(userId, parseInt(contentId), chapterId)` with a 10-minute expiry from the
fire time. -/
def fireTimer (tk : TimerTask) (fireTime : Int) (db : DB) : DB :=
  ⟨upsertLock tk.userId (jsParseInt tk.contentId) tk.chapterId
      fireTime (fireTime + LOCK_DURATION_MS) db.chapter_locks,
   db.users, db.chapters⟩

/-- One run of the 60-second cleanup interval:
`chapter_locks.deleteMany(\x7b expiresAt: \x7b $lt: now \x7d \x7d)`, reporting
`deletedCount`. -/
def sweep (now : Int) (db : DB) : Nat × DB :=
  ((db.chapter_locks.filter (fun l => decide (l.expiresAt < now))).length,
   ⟨db.chapter_locks.filter (fun l => !(decide (l.expiresAt < now))), db.users, db.chapters⟩)

/-- The interval callback around `sweep`: its body is wrapped in a
`try/catch` that logs and swallows store errors, so a failing run changes
nothing and reports no count, and never escapes the callback. -/
def sweepTick (storeFail : Bool) (now : Int) (db : DB) : DB × Option Nat :=
  if storeFail then (db, none)
  else ((sweep now db).2, some (sweep now db).1)

/-- Database used by the key-space counterexample: no leases, no users, one
chapter whose normalized title is the string form of content id 42. -/
def c3db : DB := ⟨[], [], [⟨.num 42, .str "3", .str "42", "T", [], none⟩]⟩

/-! ## Helper lemmas about the store operations -/

theorem lockMatches_self (u c ch : BVal) (ua ea : Int) :
    lockMatches u c ch ⟨u, c, ch, ua, ea⟩ = true := by
  simp [lockMatches]

theorem lockMatches_eq (u c ch : BVal) (l : Lease) (h : lockMatches u c ch l = true) :
    l.userId = u ∧ l.contentId = c ∧ l.chapterId = ch := by
  simpa [lockMatches, and_assoc] using h

/-- Upserting a lease for a key that matched at most one stored lease leaves
exactly one lease for that key, carrying the new timestamps. -/
theorem filter_upsertLock (u c ch : BVal) (ua ea : Int) (ls : List Lease)
    (h : (ls.filter (lockMatches u c ch)).length ≤ 1) :
    (upsertLock u c ch ua ea ls).filter (lockMatches u c ch) = [⟨u, c, ch, ua, ea⟩] := by
  induction ls with
  | nil =>
      simp [upsertLock, lockMatches_self]
  | cons l ls ih =>
      by_cases hm : lockMatches u c ch l = true
      · obtain ⟨h1, h2, h3⟩ := lockMatches_eq u c ch l hm
        have hcount : (List.filter (lockMatches u c ch) ls).length = 0 := by
          rw [List.filter_cons_of_pos hm] at h
          simpa using h
        have hnil : List.filter (lockMatches u c ch) ls = [] :=
          List.length_eq_zero.mp hcount
        simp only [upsertLock, if_pos hm]
        rw [List.filter_cons_of_pos (by rw [h1, h2, h3]; exact lockMatches_self u c ch ua ea),
          hnil, h1, h2, h3]
      · have h2 : (List.filter (lockMatches u c ch) ls).length ≤ 1 := by
          rwa [List.filter_cons_of_neg (by simp [hm])] at h
        simp only [upsertLock, if_neg hm]
        rw [List.filter_cons_of_neg (by simp [hm])]
        exact ih h2

/-- Every lease present after an upsert was either already stored or carries
the upsert's contentId key. -/
theorem mem_upsertLock (u c ch : BVal) (ua ea : Int) (ls : List Lease) (x : Lease)
    (hx : x ∈ upsertLock u c ch ua ea ls) : x ∈ ls ∨ x.contentId = c := by
  induction ls with
  | nil =>
      simp only [upsertLock, List.mem_singleton] at hx
      right; rw [hx]
  | cons l ls ih =>
      by_cases hm : lockMatches u c ch l = true
      · rw [upsertLock, if_pos hm] at hx
        rcases List.mem_cons.mp hx with h1 | h1
        · right; rw [h1]; exact (lockMatches_eq u c ch l hm).2.1
        · left; exact List.mem_cons_of_mem _ h1
      · rw [upsertLock, if_neg hm] at hx
        rcases List.mem_cons.mp hx with h1 | h1
        · left; rw [h1]; exact List.mem_cons_self _ _
        · rcases ih h1 with h2 | h2
          · left; exact List.mem_cons_of_mem _ h2
          · right; exact h2

theorem jsParseIntCore_ne_str (cs : List Char) (s : String) :
    jsParseIntCore cs ≠ .str s := by
  unfold jsParseIntCore
  split <;> simp

/-- `parseInt` of a string is a number or NaN, never a BSON string. -/
theorem jsParseIntStr_ne_str (s t : String) : jsParseIntStr s ≠ .str t := by
  unfold jsParseIntStr
  split
  · split
    · simp
    · intro hv
      exact jsParseIntCore_ne_str _ _ hv
  · exact jsParseIntCore_ne_str _ _
  · exact jsParseIntCore_ne_str _ _

/-- `parseInt` never produces a BSON string. -/
theorem jsParseInt_ne_str (v : BVal) (t : String) : jsParseInt v ≠ .str t := by
  cases v <;> simp [jsParseInt, jsParseIntStr_ne_str]

theorem jsParseInt_str (s : String) : jsParseInt (.str s) = jsParseIntStr s := rfl

/-- When the three body fields are truthy, `POST /api/unlock-chapter` leaves
the lease table equal to the upsert of the parseInt-keyed lease, whether or
not the trailing last-seen update fails. -/
theorem unlockChapter_locks_ok (f : Bool) (t : Int) (u c ch : BVal) (db : DB)
    (hu : truthy u = true) (hc : truthy c = true) (hch : truthy ch = true) :
    (unlockChapter f t u c ch db).2.chapter_locks =
      upsertLock u (jsParseInt c) ch t (t + LOCK_DURATION_MS) db.chapter_locks := by
  unfold unlockChapter
  rw [if_neg (by simp [hu, hc, hch])]
  cases f <;> rfl

/-- When the three body fields are truthy, `POST /ads-complete` leaves the
lease table equal to the upsert of the raw-keyed lease, whether or not the
trailing last-seen update fails. -/
theorem adsComplete_locks_ok (f : Bool) (t : Int) (u c ch : BVal) (db : DB)
    (hu : truthy u = true) (hc : truthy c = true) (hch : truthy ch = true) :
    (adsComplete f t u c ch db).2.chapter_locks =
      upsertLock u c ch t (t + LOCK_DURATION_MS) db.chapter_locks := by
  unfold adsComplete
  rw [if_neg (by simp [hu, hc, hch])]
  cases f <;> rfl

/-- The lease table after any `POST /api/unlock-chapter` call is either the
old table (rejected request) or the parseInt-keyed upsert. -/
theorem unlockChapter_locks_cases (f : Bool) (t : Int) (u c ch : BVal) (db : DB) :
    (unlockChapter f t u c ch db).2.chapter_locks = db.chapter_locks ∨
    (unlockChapter f t u c ch db).2.chapter_locks =
      upsertLock u (jsParseInt c) ch t (t + LOCK_DURATION_MS) db.chapter_locks := by
  unfold unlockChapter
  split
  · left; rfl
  · cases f
    · right; rfl
    · right; rfl

/-- The Access Gate denies with the 402 signal whenever no stored lease has
a string-typed contentId, since its lookup keys contentId by the raw path
string. -/
theorem gate_locked_of_no_str (now : Int) (manga chId : String) (user : BVal) (db : DB)
    (h : ∀ l ∈ db.chapter_locks, ∀ s : String, l.contentId ≠ .str s) :
    (chapterGate now manga chId user db).1 = .locked := by
  have hh : activeLockExists now (if truthy user then user else .str "guest")
      (.str manga) (.str chId) db = false := by
    rw [activeLockExists, List.any_eq_false]
    intro l hl
    simp only [activeLockMatches, lockMatches, Bool.and_eq_true, beq_iff_eq, not_and,
      Bool.not_eq_true]
    intro hkey
    exact absurd hkey.1.2 (h l hl manga)
  simp [chapterGate, hh]

/-! ## Claim theorems -/

/-- Claim C1: after a grant through `POST /api/unlock-chapter` completes at
time `t`, a lease for the triple exists with `expiresAt = t + 600000`; the
`GET /api/check-unlock` query answers true at every check strictly before
the expiry and false at every check at or after `t + 600000` (its filter is
`expiresAt` strictly greater than now). -/
theorem C1_grant_then_check (t tq : Int) (u c ch : String) (db : DB)
    (hu : u ≠ "") (hc : c ≠ "") (hch : ch ≠ "")
    (hkey : lockKeyCount (.str u) (jsParseIntStr c) (.str ch) db ≤ 1) :
    (∃ l ∈ (unlockChapter false t (.str u) (.str c) (.str ch) db).2.chapter_locks,
        lockMatches (.str u) (jsParseIntStr c) (.str ch) l = true ∧
        l.unlockedAt = t ∧ l.expiresAt = t + LOCK_DURATION_MS) ∧
    (tq < t + LOCK_DURATION_MS →
      (checkUnlock tq u c ch (unlockChapter false t (.str u) (.str c) (.str ch) db).2).1
        = true) ∧
    (t + LOCK_DURATION_MS ≤ tq →
      (checkUnlock tq u c ch (unlockChapter false t (.str u) (.str c) (.str ch) db).2).1
        = false) := by
  have hlocks := unlockChapter_locks_ok false t (.str u) (.str c) (.str ch) db
    (by simp [truthy, hu]) (by simp [truthy, hc]) (by simp [truthy, hch])
  have hfilter := filter_upsertLock (.str u) (jsParseIntStr c) (.str ch)
    t (t + LOCK_DURATION_MS) db.chapter_locks hkey
  have hmem : (⟨.str u, jsParseIntStr c, .str ch, t, t + LOCK_DURATION_MS⟩ : Lease) ∈
      (unlockChapter false t (.str u) (.str c) (.str ch) db).2.chapter_locks := by
    rw [hlocks, jsParseInt_str]
    have hin : (⟨.str u, jsParseIntStr c, .str ch, t, t + LOCK_DURATION_MS⟩ : Lease) ∈
        List.filter (lockMatches (.str u) (jsParseIntStr c) (.str ch))
          (upsertLock (.str u) (jsParseIntStr c) (.str ch) t (t + LOCK_DURATION_MS)
            db.chapter_locks) := by
      rw [hfilter]
      exact List.mem_singleton.mpr rfl
    exact List.mem_of_mem_filter hin
  refine ⟨⟨_, hmem, lockMatches_self _ _ _ _ _, rfl, rfl⟩, ?_, ?_⟩
  · intro htq
    rw [checkUnlock, activeLockExists]
    exact List.any_eq_true.mpr ⟨_, hmem, by
      simp [activeLockMatches, lockMatches_self, htq]⟩
  · intro htq
    rw [checkUnlock, activeLockExists]
    rw [List.any_eq_false]
    intro l hl
    by_cases hm : lockMatches (.str u) (jsParseIntStr c) (.str ch) l = true
    · have hlf : l ∈ List.filter (lockMatches (.str u) (jsParseIntStr c) (.str ch))
          (unlockChapter false t (.str u) (.str c) (.str ch) db).2.chapter_locks :=
        List.mem_filter.mpr ⟨hl, hm⟩
      rw [hlocks, show jsParseInt (.str c) = jsParseIntStr c from rfl, hfilter] at hlf
      have hle : l = ⟨.str u, jsParseIntStr c, .str ch, t, t + LOCK_DURATION_MS⟩ :=
        List.mem_singleton.mp hlf
      simp [activeLockMatches, hle, not_lt.mpr htq]
    · simp [activeLockMatches, hm]

/-- Claim C1 witness: the spec's concrete scenario on an empty store — grant
at t=0 for ("guest_1", "42", "3"), active at t=599999, inactive at
t=600000. -/
theorem C1_grant_then_check_witness :
    (checkUnlock 599999 "guest_1" "42" "3"
        (unlockChapter false 0 (.str "guest_1") (.str "42") (.str "3") emptyDB).2).1
      = true ∧
    (checkUnlock 600000 "guest_1" "42" "3"
        (unlockChapter false 0 (.str "guest_1") (.str "42") (.str "3") emptyDB).2).1
      = false := by
  constructor
  · exact (C1_grant_then_check 0 599999 "guest_1" "42" "3" emptyDB
      (by decide) (by decide) (by decide) (by decide)).2.1 (by decide)
  · exact (C1_grant_then_check 0 600000 "guest_1" "42" "3" emptyDB
      (by decide) (by decide) (by decide) (by decide)).2.2 (by decide)

/-- Claim C2 counterexample: granting the same supplied triple
(userId "ua", contentId "5", chapterId "1") first through
`POST /api/unlock-chapter` and then through `POST /ads-complete` leaves two
leases, because the first path stores `parseInt(contentId)` (the number 5)
while the second stores the raw string "5"; the second grant does not renew
the first lease. -/
theorem C2_two_paths_two_leases :
    ((adsComplete false 100 (.str "ua") (.str "5") (.str "1")
        (unlockChapter false 0 (.str "ua") (.str "5") (.str "1") emptyDB).2).2).chapter_locks
      = [⟨.str "ua", .num 5, .str "1", 0, 600000⟩,
         ⟨.str "ua", .str "5", .str "1", 100, 600100⟩] := by
  decide

/-- Claim C2 (amended): within each single grant path the upsert keyed by
the full stored triple guarantees at most one lease per key — granting the
same triple twice through `POST /api/unlock-chapter` (parseInt key), or
twice through `POST /ads-complete` (raw key), leaves exactly one lease for
that key with `expiresAt` equal to the second call's now + duration; but the
two paths key contentId differently, so cross-path grants of one supplied
triple can coexist. -/
theorem C2_single_path_renewal (t1 t2 : Int) (u c ch : BVal) (db : DB)
    (hu : truthy u = true) (hc : truthy c = true) (hch : truthy ch = true)
    (hk1 : lockKeyCount u (jsParseInt c) ch db ≤ 1)
    (hk2 : lockKeyCount u c ch db ≤ 1) :
    ((unlockChapter false t2 u c ch
        (unlockChapter false t1 u c ch db).2).2.chapter_locks.filter
          (lockMatches u (jsParseInt c) ch)
      = [⟨u, jsParseInt c, ch, t2, t2 + LOCK_DURATION_MS⟩]) ∧
    ((adsComplete false t2 u c ch
        (adsComplete false t1 u c ch db).2).2.chapter_locks.filter
          (lockMatches u c ch)
      = [⟨u, c, ch, t2, t2 + LOCK_DURATION_MS⟩]) := by
  constructor
  · have h1 := unlockChapter_locks_ok false t1 u c ch db hu hc hch
    have hf1 := filter_upsertLock u (jsParseInt c) ch t1 (t1 + LOCK_DURATION_MS)
      db.chapter_locks hk1
    have hk : lockKeyCount u (jsParseInt c) ch (unlockChapter false t1 u c ch db).2 ≤ 1 := by
      rw [lockKeyCount, h1, hf1]; simp
    rw [unlockChapter_locks_ok false t2 u c ch (unlockChapter false t1 u c ch db).2 hu hc hch]
    exact filter_upsertLock u (jsParseInt c) ch t2 (t2 + LOCK_DURATION_MS) _ hk
  · have h1 := adsComplete_locks_ok false t1 u c ch db hu hc hch
    have hf1 := filter_upsertLock u c ch t1 (t1 + LOCK_DURATION_MS)
      db.chapter_locks hk2
    have hk : lockKeyCount u c ch (adsComplete false t1 u c ch db).2 ≤ 1 := by
      rw [lockKeyCount, h1, hf1]; simp
    rw [adsComplete_locks_ok false t2 u c ch (adsComplete false t1 u c ch db).2 hu hc hch]
    exact filter_upsertLock u c ch t2 (t2 + LOCK_DURATION_MS) _ hk

/-- Claim C2 witness: the spec's renewal scenario — grants at t=0 and
t=100000 on an empty store leave exactly one lease expiring at 700000. -/
theorem C2_single_path_renewal_witness :
    ((unlockChapter false 100000 (.str "ua") (.str "5") (.str "1")
        (unlockChapter false 0 (.str "ua") (.str "5") (.str "1") emptyDB).2).2.chapter_locks.filter
          (lockMatches (.str "ua") (jsParseInt (.str "5")) (.str "1"))
      = [⟨.str "ua", jsParseInt (.str "5"), .str "1", 100000, 700000⟩]) ∧
    ((adsComplete false 100000 (.str "ua") (.str "5") (.str "1")
        (adsComplete false 0 (.str "ua") (.str "5") (.str "1") emptyDB).2).2.chapter_locks.filter
          (lockMatches (.str "ua") (.str "5") (.str "1"))
      = [⟨.str "ua", .str "5", .str "1", 100000, 700000⟩]) :=
  C2_single_path_renewal 0 100000 (.str "ua") (.str "5") (.str "1") emptyDB
    (by decide) (by decide) (by decide) (by decide) (by decide)

/-- Claim C3 counterexample: grant contentId "42" chapter "3" to user "u3"
through `POST /api/unlock-chapter` at t=0 on a store holding a chapter whose
normalizedTitle is "42"; at t=1 the lock-management check sees an active
lease and the chapter exists for the gate's own chapter lookup, yet
`GET /chapter/42/3?user=u3` answers the 402 locked signal: the lease was
stored under the number 42 while the gate queries the string "42". -/
theorem C3_key_spaces_disagree :
    (checkUnlock 1 "u3" "42" "3"
        (unlockChapter false 0 (.str "u3") (.str "42") (.str "3") c3db).2).1 = true ∧
    findChapter "42" "3"
        (unlockChapter false 0 (.str "u3") (.str "42") (.str "3") c3db).2
      = some ⟨.num 42, .str "3", .str "42", "T", [], none⟩ ∧
    (chapterGate 1 "42" "3" (.str "u3")
        (unlockChapter false 0 (.str "u3") (.str "42") (.str "3") c3db).2).1
      = .locked := by
  decide

/-- Claim C3 (amended): the lock-management endpoints and the gated reader
use disjoint contentId key spaces.  `POST /api/unlock-chapter` stores
`parseInt(contentId)` — a number or NaN, never a BSON string — while the
gate's lease lookup keys contentId by the raw path string; hence starting
from any store whose leases all carry non-string contentIds (as every
unlock-chapter grant produces), a grant followed by a gated read yields the
402 locked signal: the two endpoints' keys never agree. -/
theorem C3_unlock_grant_invisible_to_gate (f : Bool) (t now : Int) (u c ch : BVal)
    (manga chId : String) (user : BVal) (db : DB)
    (h : ∀ l ∈ db.chapter_locks, ∀ s : String, l.contentId ≠ .str s) :
    (chapterGate now manga chId user (unlockChapter f t u c ch db).2).1 = .locked := by
  apply gate_locked_of_no_str
  intro l hl s
  rcases unlockChapter_locks_cases f t u c ch db with hcase | hcase
  · rw [hcase] at hl
    exact h l hl s
  · rw [hcase] at hl
    rcases mem_upsertLock u (jsParseInt c) ch t (t + LOCK_DURATION_MS)
        db.chapter_locks l hl with h2 | h2
    · exact h l h2 s
    · rw [h2]
      exact jsParseInt_ne_str c s

/-- Claim C3 witness: the amended theorem applied to the concrete scenario
of the counterexample database. -/
theorem C3_unlock_grant_invisible_to_gate_witness :
    (chapterGate 1 "42" "3" (.str "u3")
        (unlockChapter false 0 (.str "u3") (.str "42") (.str "3") c3db).2).1 = .locked :=
  C3_unlock_grant_invisible_to_gate false 0 1 (.str "u3") (.str "42") (.str "3")
    "42" "3" (.str "u3") c3db (by intro l hl; simp [c3db] at hl)

/-- Claim C4: the Access Gate defaults an absent userId to "guest"; with no
active lease for the resolved triple it answers the 402 locked signal
(independently of the chapters collection, hence regardless of whether the
chapter exists); with an active lease it serves an existing chapter's
payload and answers the distinct 404 signal for a missing chapter. -/
theorem C4_access_gate (now : Int) (manga chId : String) (user : BVal) (db : DB) :
    (chapterGate now manga chId .undef db = chapterGate now manga chId (.str "guest") db) ∧
    (activeLockExists now (if truthy user then user else .str "guest")
        (.str manga) (.str chId) db = false →
      chapterGate now manga chId user db = (.locked, db)) ∧
    (∀ cr : ChapterRec,
      activeLockExists now (if truthy user then user else .str "guest")
          (.str manga) (.str chId) db = true →
      findChapter manga chId db = some cr →
      chapterGate now manga chId user db = (.payload cr.title cr.pages cr.content, db)) ∧
    (activeLockExists now (if truthy user then user else .str "guest")
        (.str manga) (.str chId) db = true →
      findChapter manga chId db = none →
      chapterGate now manga chId user db = (.notFound, db)) := by
  refine ⟨rfl, ?_, ?_, ?_⟩
  · intro h
    simp [chapterGate, h]
  · intro cr h hf
    simp [chapterGate, h, hf]
  · intro h hf
    simp [chapterGate, h, hf]

/-- Claim C4 witness: concrete gate runs — locked with no lease even though
the chapter exists, payload with a lease and an existing chapter, 404 with a
lease but no chapter; and the guest default on the counterexample store. -/
theorem C4_access_gate_witness :
    chapterGate 1 "42" "3" .undef c3db = chapterGate 1 "42" "3" (.str "guest") c3db ∧
    chapterGate 1 "42" "3" (.str "u4") c3db = (.locked, c3db) ∧
    chapterGate 1 "42" "3" (.str "u4")
        (⟨[⟨.str "u4", .str "42", .str "3", 0, 600000⟩], [], c3db.chapters⟩ : DB)
      = (.payload "T" [] none,
         ⟨[⟨.str "u4", .str "42", .str "3", 0, 600000⟩], [], c3db.chapters⟩) ∧
    chapterGate 1 "42" "9" (.str "u4")
        (⟨[⟨.str "u4", .str "42", .str "9", 0, 600000⟩], [], c3db.chapters⟩ : DB)
      = (.notFound,
         ⟨[⟨.str "u4", .str "42", .str "9", 0, 600000⟩], [], c3db.chapters⟩) := by
  refine ⟨(C4_access_gate 1 "42" "3" (.str "u4") c3db).1, ?_, ?_, ?_⟩
  · exact (C4_access_gate 1 "42" "3" (.str "u4") c3db).2.1 (by decide)
  · exact (C4_access_gate 1 "42" "3" (.str "u4")
      (⟨[⟨.str "u4", .str "42", .str "3", 0, 600000⟩], [], c3db.chapters⟩ : DB)).2.2.1
      ⟨.num 42, .str "3", .str "42", "T", [], none⟩ (by decide) (by decide)
  · exact (C4_access_gate 1 "42" "9" (.str "u4")
      (⟨[⟨.str "u4", .str "42", .str "9", 0, 600000⟩], [], c3db.chapters⟩ : DB)).2.2.2
      (by decide) (by decide)

/-- Claim C5 counterexample: with the last-seen store update failing, a
valid `POST /api/unlock-chapter` grant leaves the upserted lease in place
(no rollback) yet answers the 500 error response instead of reporting
success: the failure is not swallowed. -/
theorem C5_last_seen_failure_not_swallowed :
    (unlockChapter true 0 (.str "u5") (.str "7") (.str "1") emptyDB).1 = .serverError ∧
    (unlockChapter true 0 (.str "u5") (.str "7") (.str "1") emptyDB).2.chapter_locks
      = [⟨.str "u5", .num 7, .str "1", 0, 600000⟩] := by
  decide

/-- Claim C5 (amended): on both grant endpoints a failure of the best-effort
last-seen update never rolls back the lease upsert — the lease table equals
the one a fully successful call produces — but because the update runs
inside the handler's single try/catch, the endpoint then answers the 500
error response rather than success; the error is logged by the catch. -/
theorem C5_last_seen_failure_keeps_lease (now : Int) (u c ch : BVal) (db : DB)
    (hu : truthy u = true) (hc : truthy c = true) (hch : truthy ch = true) :
    ((unlockChapter true now u c ch db).1 = .serverError ∧
     (unlockChapter true now u c ch db).2.chapter_locks
       = (unlockChapter false now u c ch db).2.chapter_locks) ∧
    ((adsComplete true now u c ch db).1 = .serverError ∧
     (adsComplete true now u c ch db).2.chapter_locks
       = (adsComplete false now u c ch db).2.chapter_locks) := by
  refine ⟨⟨?_, ?_⟩, ⟨?_, ?_⟩⟩
  · unfold unlockChapter
    rw [if_neg (by simp [hu, hc, hch])]
    rfl
  · rw [unlockChapter_locks_ok true now u c ch db hu hc hch,
      unlockChapter_locks_ok false now u c ch db hu hc hch]
  · unfold adsComplete
    rw [if_neg (by simp [hu, hc, hch])]
    rfl
  · rw [adsComplete_locks_ok true now u c ch db hu hc hch,
      adsComplete_locks_ok false now u c ch db hu hc hch]

/-- Claim C5 witness: the amended theorem at a concrete grant. -/
theorem C5_last_seen_failure_keeps_lease_witness :
    ((unlockChapter true 5 (.str "u5") (.str "7") (.str "2") emptyDB).1 = .serverError ∧
     (unlockChapter true 5 (.str "u5") (.str "7") (.str "2") emptyDB).2.chapter_locks
       = (unlockChapter false 5 (.str "u5") (.str "7") (.str "2") emptyDB).2.chapter_locks) ∧
    ((adsComplete true 5 (.str "u5") (.str "7") (.str "2") emptyDB).1 = .serverError ∧
     (adsComplete true 5 (.str "u5") (.str "7") (.str "2") emptyDB).2.chapter_locks
       = (adsComplete false 5 (.str "u5") (.str "7") (.str "2") emptyDB).2.chapter_locks) :=
  C5_last_seen_failure_keeps_lease 5 (.str "u5") (.str "7") (.str "2") emptyDB
    (by decide) (by decide) (by decide)

/-- Claim C6 counterexample: `POST /api/start-chapter-timer` with every
identifier missing still answers the success response (not a 400), and the
grant it schedules writes a lease into the store when it fires. -/
theorem C6_timer_accepts_missing_fields :
    (startChapterTimer 0 .undef .undef .undef emptyDB).resp = .started 40000 ∧
    (startChapterTimer 0 .undef .undef .undef emptyDB).db = emptyDB ∧
    (fireTimer (startChapterTimer 0 .undef .undef .undef emptyDB).task 40000
        emptyDB).chapter_locks
      = [⟨.undef, .nan, .undef, 40000, 640000⟩] := by
  decide

/-- Claim C6 (amended): `POST /api/unlock-chapter` and `POST /ads-complete`
reject a request in which userId, contentId or chapterId is missing (falsy)
with the distinct 400 response and leave the store untouched; but
`POST /api/start-chapter-timer` performs no such validation — it always
answers success and schedules the delayed grant, which writes a lease even
for missing fields. -/
theorem C6_missing_fields_rejected (f : Bool) (now : Int)
    (userId contentId chapterId : BVal) (db : DB)
    (h : truthy userId = false ∨ truthy contentId = false ∨ truthy chapterId = false) :
    unlockChapter f now userId contentId chapterId db = (.badRequest, db) ∧
    adsComplete f now userId contentId chapterId db = (.badRequest, db) ∧
    (startChapterTimer now userId contentId chapterId db).resp = .started TIMER_DELAY_MS ∧
    (startChapterTimer now userId contentId chapterId db).db = db := by
  have hcond : (!(truthy userId) || !(truthy contentId) || !(truthy chapterId)) = true := by
    rcases h with h | h | h <;> simp [h]
  refine ⟨?_, ?_, rfl, rfl⟩
  · unfold unlockChapter
    rw [if_pos hcond]
  · unfold adsComplete
    rw [if_pos hcond]

/-- Claim C6 witness: the amended theorem with a missing contentId. -/
theorem C6_missing_fields_rejected_witness :
    unlockChapter false 0 (.str "u6") .undef (.str "1") emptyDB = (.badRequest, emptyDB) ∧
    adsComplete false 0 (.str "u6") .undef (.str "1") emptyDB = (.badRequest, emptyDB) ∧
    (startChapterTimer 0 (.str "u6") .undef (.str "1") emptyDB).resp
      = .started TIMER_DELAY_MS ∧
    (startChapterTimer 0 (.str "u6") .undef (.str "1") emptyDB).db = emptyDB :=
  C6_missing_fields_rejected false 0 (.str "u6") .undef (.str "1") emptyDB
    (Or.inr (Or.inl (by decide)))

/-- Claim C7: one run of the 60-second cleanup task keeps exactly the leases
whose `expiresAt` is at or after the sweep's now (so it deletes exactly the
strictly expired ones and never deletes a lease early), reports the number
removed as the count of strictly expired leases, removed plus kept accounts
for every stored lease, and a failing run is swallowed by the callback's
try/catch, leaving the store unchanged and reporting nothing. -/
theorem C7_sweeper (now : Int) (db : DB) :
    (∀ l : Lease, l ∈ (sweep now db).2.chapter_locks ↔
        l ∈ db.chapter_locks ∧ now ≤ l.expiresAt) ∧
    ((sweep now db).1
      = (db.chapter_locks.filter (fun l => decide (l.expiresAt < now))).length) ∧
    ((sweep now db).1 + (sweep now db).2.chapter_locks.length
      = db.chapter_locks.length) ∧
    (sweepTick true now db = (db, none)) := by
  refine ⟨?_, rfl, ?_, rfl⟩
  · intro l
    simp [sweep, List.mem_filter, not_lt]
  · simp only [sweep]
    induction db.chapter_locks with
    | nil => rfl
    | cons l ls ih =>
        by_cases h : l.expiresAt < now <;>
          simp [List.filter_cons, h, ← ih] <;> omega

/-- Claim C8: `POST /api/refresh-chapter-locks` deletes every lease
regardless of expiry state and reports the number removed; afterwards every
`GET /api/check-unlock` query and every `GET /api/user-locks` listing for
any previously-granted triple answers false / empty. -/
theorem C8_revoke_all (db : DB) :
    (refreshChapterLocks db).1 = db.chapter_locks.length ∧
    (refreshChapterLocks db).2.chapter_locks = [] ∧
    (∀ (now : Int) (u c ch : String),
      (checkUnlock now u c ch (refreshChapterLocks db).2).1 = false) ∧
    (∀ (now : Int) (u : String),
      (userLocks now u (refreshChapterLocks db).2).1 = []) := by
  refine ⟨rfl, rfl, ?_, ?_⟩
  · intro now u c ch
    rfl
  · intro now u
    rfl

/-- Claim C9: `POST /api/start-chapter-timer` answers success immediately
with the store untouched and schedules the grant 40000 ms ahead; for a
triple with no prior lease, the unlock check is false at every time before
the delay elapses, and once the scheduled grant fires the check is true
until the lease expires 600000 ms after the fire time. -/
theorem C9_delayed_grant (t0 tb ta : Int) (u c ch : String) (db : DB)
    (hprior : lockKeyCount (.str u) (jsParseIntStr c) (.str ch) db = 0)
    (hb : tb < t0 + TIMER_DELAY_MS)
    (ha1 : t0 + TIMER_DELAY_MS < ta)
    (ha2 : ta < t0 + TIMER_DELAY_MS + LOCK_DURATION_MS) :
    (startChapterTimer t0 (.str u) (.str c) (.str ch) db).resp = .started TIMER_DELAY_MS ∧
    (startChapterTimer t0 (.str u) (.str c) (.str ch) db).db = db ∧
    (startChapterTimer t0 (.str u) (.str c) (.str ch) db).task.fireAt
      = t0 + TIMER_DELAY_MS ∧
    (checkUnlock tb u c ch db).1 = false ∧
    (checkUnlock ta u c ch
        (fireTimer (startChapterTimer t0 (.str u) (.str c) (.str ch) db).task
          (t0 + TIMER_DELAY_MS) db)).1 = true ∧
    (∃ l ∈ (fireTimer (startChapterTimer t0 (.str u) (.str c) (.str ch) db).task
          (t0 + TIMER_DELAY_MS) db).chapter_locks,
        lockMatches (.str u) (jsParseIntStr c) (.str ch) l = true ∧
        l.expiresAt = (t0 + TIMER_DELAY_MS) + LOCK_DURATION_MS) := by
  have hfire : (fireTimer (startChapterTimer t0 (.str u) (.str c) (.str ch) db).task
        (t0 + TIMER_DELAY_MS) db).chapter_locks
      = upsertLock (.str u) (jsParseIntStr c) (.str ch) (t0 + TIMER_DELAY_MS)
          ((t0 + TIMER_DELAY_MS) + LOCK_DURATION_MS) db.chapter_locks := rfl
  have hfilter := filter_upsertLock (.str u) (jsParseIntStr c) (.str ch)
    (t0 + TIMER_DELAY_MS) ((t0 + TIMER_DELAY_MS) + LOCK_DURATION_MS)
    db.chapter_locks (by rw [show (db.chapter_locks.filter
      (lockMatches (.str u) (jsParseIntStr c) (.str ch))).length
        = lockKeyCount (.str u) (jsParseIntStr c) (.str ch) db from rfl, hprior]; omega)
  have hmem : (⟨.str u, jsParseIntStr c, .str ch, t0 + TIMER_DELAY_MS,
        (t0 + TIMER_DELAY_MS) + LOCK_DURATION_MS⟩ : Lease) ∈
      (fireTimer (startChapterTimer t0 (.str u) (.str c) (.str ch) db).task
        (t0 + TIMER_DELAY_MS) db).chapter_locks := by
    rw [hfire]
    have hin : (⟨.str u, jsParseIntStr c, .str ch, t0 + TIMER_DELAY_MS,
        (t0 + TIMER_DELAY_MS) + LOCK_DURATION_MS⟩ : Lease) ∈
        List.filter (lockMatches (.str u) (jsParseIntStr c) (.str ch))
          (upsertLock (.str u) (jsParseIntStr c) (.str ch) (t0 + TIMER_DELAY_MS)
            ((t0 + TIMER_DELAY_MS) + LOCK_DURATION_MS) db.chapter_locks) := by
      rw [hfilter]
      exact List.mem_singleton.mpr rfl
    exact List.mem_of_mem_filter hin
  refine ⟨rfl, rfl, rfl, ?_, ?_, ⟨_, hmem, lockMatches_self _ _ _ _ _, rfl⟩⟩
  · rw [checkUnlock, activeLockExists, List.any_eq_false]
    intro l hl
    by_cases hm : lockMatches (.str u) (jsParseIntStr c) (.str ch) l = true
    · have : l ∈ db.chapter_locks.filter
          (lockMatches (.str u) (jsParseIntStr c) (.str ch)) :=
        List.mem_filter.mpr ⟨hl, hm⟩
      have hnil : db.chapter_locks.filter
          (lockMatches (.str u) (jsParseIntStr c) (.str ch)) = [] :=
        List.length_eq_zero.mp hprior
      rw [hnil] at this
      simp at this
    · simp [activeLockMatches, hm]
  · rw [checkUnlock, activeLockExists]
    exact List.any_eq_true.mpr ⟨_, hmem, by
      simp only [activeLockMatches, lockMatches_self, Bool.true_and, decide_eq_true_eq]
      exact lt_of_lt_of_le ha2 (le_of_eq rfl)⟩

/-- Claim C9 witness: the spec's concrete scenario — timer started at t=0 on
an empty store, check false at t=39999, true at t=40001 after the fire, and
the fired lease expires at 640000. -/
theorem C9_delayed_grant_witness :
    (startChapterTimer 0 (.str "u9") (.str "9") (.str "2") emptyDB).resp
      = .started TIMER_DELAY_MS ∧
    (startChapterTimer 0 (.str "u9") (.str "9") (.str "2") emptyDB).db = emptyDB ∧
    (startChapterTimer 0 (.str "u9") (.str "9") (.str "2") emptyDB).task.fireAt
      = 0 + TIMER_DELAY_MS ∧
    (checkUnlock 39999 "u9" "9" "2" emptyDB).1 = false ∧
    (checkUnlock 40001 "u9" "9" "2"
        (fireTimer (startChapterTimer 0 (.str "u9") (.str "9") (.str "2") emptyDB).task
          (0 + TIMER_DELAY_MS) emptyDB)).1 = true ∧
    (∃ l ∈ (fireTimer (startChapterTimer 0 (.str "u9") (.str "9") (.str "2") emptyDB).task
          (0 + TIMER_DELAY_MS) emptyDB).chapter_locks,
        lockMatches (.str "u9") (jsParseIntStr "9") (.str "2") l = true ∧
        l.expiresAt = (0 + TIMER_DELAY_MS) + LOCK_DURATION_MS) :=
  C9_delayed_grant 0 39999 40001 "u9" "9" "2" emptyDB
    (by decide) (by decide) (by decide) (by decide)

/-- Claim C10: the read-side lease queries — `GET /api/check-unlock` and
`GET /api/user-locks` — are pure: they only run find operations, returning
the database state (lease table and every other collection) unchanged. -/
theorem C10_reads_pure (now : Int) (u c ch : String) (db : DB) :
    (checkUnlock now u c ch db).2 = db ∧ (userLocks now u db).2 = db :=
  ⟨rfl, rfl⟩

end Rovel
